import Mathlib

/-!
Shallow embedding of `gtfspy/routing/forwardjourney.py` (class `ForwardJourney`).

Python values are modelled as follows: integer timestamps and stop ids become
`Int`; the optional trip identifier becomes `Option Int` (`none` is Python's
`None`); Python truthiness of an optional integer (`if leg.trip_id:` and
`if previous_arrival:`) is falsy exactly on `None` and `0`; operations that can
raise on some inputs (`TypeError` from arithmetic/comparison on `None`,
`IndexError` from `legs[-1]` on an empty list) return `Option`/`Except`, with
`none`/`error` marking the raised exception; operations whose Python body
cannot raise are total.
-/

/-- Modelled from the spec: the `Connection` class (`gtfspy.routing.connection`)
is imported by `forwardjourney.py` but its module is not among the sources.
Per spec section 3, a Leg carries departure/arrival stop identifiers,
departure/arrival integer timestamps, an optional trip identifier (absent for
walking legs), a walking flag, a waiting time, and `duration()` derived as
`arrival_time - departure_time`. -/
structure Connection where
  departure_stop : Int
  arrival_stop : Int
  departure_time : Int
  arrival_time : Int
  trip_id : Option Int
  is_walk : Bool
  waiting_time : Int
deriving Repr, DecidableEq

/-- Modelled from the spec: `duration() = arrival_time - departure_time`. -/
def Connection.duration (c : Connection) : Int :=
  c.arrival_time - c.departure_time

/-- Python truthiness of an optional integer: `None` and `0` are falsy. -/
def truthy : Option Int → Bool
  | none => false
  | some t => t != 0

/-- State of a `ForwardJourney` object: `legs`, `departure_time`,
`arrival_time`, `trip_ids` and `n_boardings`, as set up by `__init__`.
`departure_time` and `arrival_time` start as Python `None`, hence `Option`. -/
structure ForwardJourney where
  legs : List Connection
  departure_time : Option Int
  arrival_time : Option Int
  trip_ids : List Int
  n_boardings : Int
deriving Repr, DecidableEq

/-- The state right after `__init__(legs=None)`: empty legs, `None` times,
empty `trip_ids` set, zero boardings. -/
def ForwardJourney.init : ForwardJourney :=
  { legs := []
    departure_time := none
    arrival_time := none
    trip_ids := []
    n_boardings := 0 }

/-- `add_leg`: sets `departure_time` on the first append only, overwrites
`arrival_time` with the new leg's arrival, increments `n_boardings` when
`leg.trip_id and (not self.legs or (leg.trip_id != self.legs[-1].trip_id))`
(Python truthiness on `trip_id`; `legs[-1]` is the last appended leg, guarded
by the short-circuit `or`), and appends the leg. `trip_ids` is not touched. -/
def ForwardJourney.add_leg (j : ForwardJourney) (leg : Connection) : ForwardJourney :=
  { legs := j.legs ++ [leg]
    departure_time := if j.legs.isEmpty then some leg.departure_time else j.departure_time
    arrival_time := some leg.arrival_time
    trip_ids := j.trip_ids
    n_boardings :=
      if truthy leg.trip_id ∧
          (j.legs.isEmpty ∨ some leg.trip_id ≠ j.legs.getLast?.map Connection.trip_id)
      then j.n_boardings + 1
      else j.n_boardings }

/-- `__init__(legs)` with a list of legs: sequential `add_leg` from the empty
state, i.e. a left fold. -/
def ForwardJourney.build (legs : List Connection) : ForwardJourney :=
  legs.foldl ForwardJourney.add_leg ForwardJourney.init

/-- `get_travel_time`: `arrival_time - departure_time`; on an empty journey
both fields are `None` and Python raises `TypeError`, modelled as `none`. -/
def ForwardJourney.get_travel_time (j : ForwardJourney) : Option Int :=
  match j.arrival_time, j.departure_time with
  | some a, some d => some (a - d)
  | _, _ => none

/-- `get_transfers`: `max(self.n_boardings - 1, 0)`; total, no failure. -/
def ForwardJourney.get_transfers (j : ForwardJourney) : Int :=
  max (j.n_boardings - 1) 0

/-- `get_all_stops`: departure stop of every leg followed by the last leg's
arrival stop; `self.legs[-1]` raises `IndexError` on an empty journey,
modelled as `none`. -/
def ForwardJourney.get_all_stops (j : ForwardJourney) : Option (List Int) :=
  match j.legs.getLast? with
  | none => none
  | some last => some (j.legs.map Connection.departure_stop ++ [last.arrival_stop])

/-- Loop body of `get_transfer_stop_pairs`: the running state is
`previous_arrival_stop` (initially `None`) and `current_trip_id` (initially
`None`, then unconditionally set to each leg's `trip_id`, including `None`
for walking legs). A pair is emitted when `leg.trip_id is not None and
leg.trip_id != current_trip_id and previous_arrival_stop is not None`. -/
def transferPairsLoop : List Connection → Option Int → Option Int → List (Int × Int)
  | [], _, _ => []
  | leg :: rest, prevArr, curTrip =>
    (match prevArr, leg.trip_id with
     | some p, some t => if some t ≠ curTrip then [(p, leg.departure_stop)] else []
     | _, _ => []) ++ transferPairsLoop rest (some leg.arrival_stop) leg.trip_id

/-- `get_transfer_stop_pairs`: run the loop over `legs` from the initial
`None`/`None` state; total, no failure (an empty journey yields `[]`). -/
def ForwardJourney.get_transfer_stop_pairs (j : ForwardJourney) : List (Int × Int) :=
  transferPairsLoop j.legs none none

/-- Loop body of `get_waiting_times`: `previous_arrival` starts as `None`, a
gap is appended when `if previous_arrival:` is truthy — i.e. when the
previous leg's arrival time is neither `None` nor `0`. -/
def waitingTimesLoop : List Connection → Option Int → List Int
  | [], _ => []
  | leg :: rest, prevArr =>
    (match prevArr with
     | some p => if p ≠ 0 then [leg.departure_time - p] else []
     | none => []) ++ waitingTimesLoop rest (some leg.arrival_time)

/-- `get_waiting_times`: run the loop over `legs`; total, no failure. -/
def ForwardJourney.get_waiting_times (j : ForwardJourney) : List Int :=
  waitingTimesLoop j.legs none

/-- `get_total_waiting_time`: `sum` of `get_waiting_times` (0 on empty). -/
def ForwardJourney.get_total_waiting_time (j : ForwardJourney) : Int :=
  j.get_waiting_times.sum

/-- `get_invehicle_times`: `duration()` of every leg whose `trip_id is not
None` (an `is not None` test, not truthiness). -/
def ForwardJourney.get_invehicle_times (j : ForwardJourney) : List Int :=
  (j.legs.filter (fun l => l.trip_id.isSome)).map Connection.duration

/-- `get_total_invehicle_time`: `sum` of `get_invehicle_times`. -/
def ForwardJourney.get_total_invehicle_time (j : ForwardJourney) : Int :=
  j.get_invehicle_times.sum

/-- `get_walking_times`: `duration() - waiting_time` of every leg with
`is_walk` true. -/
def ForwardJourney.get_walking_times (j : ForwardJourney) : List Int :=
  (j.legs.filter (fun l => l.is_walk)).map (fun l => l.duration - l.waiting_time)

/-- `get_total_walking_time`: `sum` of `get_walking_times`. -/
def ForwardJourney.get_total_walking_time (j : ForwardJourney) : Int :=
  j.get_walking_times.sum

/-- Python `x >= y` on possibly-`None` integers: raises `TypeError` (`none`)
unless both are present. -/
def oge : Option Int → Option Int → Option Bool
  | some a, some b => some (decide (a ≥ b))
  | _, _ => none

/-- Python `x <= y` on possibly-`None` integers. -/
def ole : Option Int → Option Int → Option Bool
  | some a, some b => some (decide (a ≤ b))
  | _, _ => none

/-- Python short-circuit `and` over fallible boolean sub-expressions: the
right operand is evaluated only when the left is `True`. -/
def pand (x : Option Bool) (y : Unit → Option Bool) : Option Bool :=
  match x with
  | none => none
  | some false => some false
  | some true => y ()

/-- `dominates(self, other, consider_time, consider_boardings)`: when
`consider_time`, require `self.departure_time >= other.departure_time and
self.arrival_time <= other.arrival_time` (short-circuit `and`), returning
`False` when the conjunction is falsy; when `consider_boardings`, require
`self.n_boardings <= other.n_boardings`; otherwise `True`. Comparing a
`None` time raises `TypeError` (`none`). -/
def ForwardJourney.dominates (s o : ForwardJourney)
    (consider_time consider_boardings : Bool) : Option Bool :=
  if consider_time then
    match pand (oge s.departure_time o.departure_time)
               (fun _ => ole s.arrival_time o.arrival_time) with
    | none => none
    | some false => some false
    | some true =>
      if consider_boardings ∧ ¬ (s.n_boardings ≤ o.n_boardings) then some false
      else some true
  else
    if consider_boardings ∧ ¬ (s.n_boardings ≤ o.n_boardings) then some false
    else some true

/-- A dynamically-typed argument to `add_leg`: either an actual `Connection`
or some other value. -/
inductive LegValue where
  | conn (c : Connection)
  | notConn
deriving Repr, DecidableEq

/-- `add_leg` with its dynamic type check: the method body begins with
`assert isinstance(leg, Connection)`, before any field assignment, so a
non-`Connection` argument raises `AssertionError` while the journey still
holds its pre-call state (carried by `Except.error`); a `Connection`
argument proceeds with the normal body. -/
def ForwardJourney.add_leg_dyn (j : ForwardJourney) :
    LegValue → Except ForwardJourney ForwardJourney
  | LegValue.conn c => Except.ok (j.add_leg c)
  | LegValue.notConn => Except.error j

/-! Helper lemmas about `build` (the fold of `add_leg` over the leg list). -/

lemma foldl_add_leg_legs (ls : List Connection) (j : ForwardJourney) :
    (ls.foldl ForwardJourney.add_leg j).legs = j.legs ++ ls := by
  induction ls generalizing j with
  | nil => simp
  | cons a as ih => simp [List.foldl_cons, ih, ForwardJourney.add_leg]

lemma build_legs (ls : List Connection) : (ForwardJourney.build ls).legs = ls := by
  simp [ForwardJourney.build, foldl_add_leg_legs, ForwardJourney.init]

lemma foldl_add_leg_trip_ids (ls : List Connection) (j : ForwardJourney) :
    (ls.foldl ForwardJourney.add_leg j).trip_ids = j.trip_ids := by
  induction ls generalizing j with
  | nil => rfl
  | cons a as ih => simp [List.foldl_cons, ih, ForwardJourney.add_leg]

lemma add_leg_departure_of_ne_nil (j : ForwardJourney) (leg : Connection)
    (h : j.legs ≠ []) : (j.add_leg leg).departure_time = j.departure_time := by
  simp [ForwardJourney.add_leg, h]

lemma foldl_add_leg_departure (ls : List Connection) (j : ForwardJourney)
    (h : j.legs ≠ []) :
    (ls.foldl ForwardJourney.add_leg j).departure_time = j.departure_time := by
  induction ls generalizing j with
  | nil => rfl
  | cons a as ih =>
    rw [List.foldl_cons, ih _ (by simp [ForwardJourney.add_leg]),
      add_leg_departure_of_ne_nil j a h]

lemma build_departure (x : Connection) (xs : List Connection) :
    (ForwardJourney.build (x :: xs)).departure_time = some x.departure_time := by
  have h1 : ForwardJourney.build (x :: xs)
      = xs.foldl ForwardJourney.add_leg (ForwardJourney.init.add_leg x) := rfl
  rw [h1, foldl_add_leg_departure xs _ (by simp [ForwardJourney.add_leg, ForwardJourney.init])]
  rfl

lemma foldl_add_leg_arrival (ls : List Connection) (j : ForwardJourney)
    (h : ls ≠ []) :
    (ls.foldl ForwardJourney.add_leg j).arrival_time
      = ls.getLast?.map Connection.arrival_time := by
  induction ls generalizing j with
  | nil => exact absurd rfl h
  | cons a as ih =>
    cases as with
    | nil => simp [ForwardJourney.add_leg]
    | cons b bs =>
      rw [List.foldl_cons, ih _ (by simp), List.getLast?_cons_cons]

lemma build_arrival (ls : List Connection) (h : ls ≠ []) :
    (ForwardJourney.build ls).arrival_time
      = ls.getLast?.map Connection.arrival_time :=
  foldl_add_leg_arrival ls ForwardJourney.init h

lemma build_departure_some (ls : List Connection) (h : ls ≠ []) :
    ∃ d, (ForwardJourney.build ls).departure_time = some d := by
  cases ls with
  | nil => exact absurd rfl h
  | cons x xs => exact ⟨x.departure_time, build_departure x xs⟩

lemma build_arrival_some (ls : List Connection) (h : ls ≠ []) :
    ∃ a, (ForwardJourney.build ls).arrival_time = some a := by
  refine ⟨(ls.getLast h).arrival_time, ?_⟩
  rw [build_arrival ls h, List.getLast?_eq_getLast_of_ne_nil h]
  rfl

/-- C9: no operation ever populates `trip_ids`: building a journey from any
leg list leaves `trip_ids` as the empty set, and a single `add_leg` never
changes `trip_ids`. -/
theorem C9_trip_ids_never_populated (ls : List Connection)
    (j : ForwardJourney) (leg : Connection) :
    (ForwardJourney.build ls).trip_ids = [] ∧ (j.add_leg leg).trip_ids = j.trip_ids :=
  ⟨foldl_add_leg_trip_ids ls ForwardJourney.init, rfl⟩

/-- C8: appending a value that is not a `Connection` fails (the leading
`isinstance` assertion raises before any field assignment) and the journey
state carried out by the exception is exactly the pre-call state, while a
`Connection` argument performs the normal append. -/
theorem C8_add_leg_type_check (j : ForwardJourney) (c : Connection) :
    j.add_leg_dyn LegValue.notConn = Except.error j ∧
    j.add_leg_dyn (LegValue.conn c) = Except.ok (j.add_leg c) :=
  ⟨rfl, rfl⟩

/-- C1 counterexample: appending a leg with the non-null trip identifier `0`
to a fresh journey — the claim's condition holds (trip id non-null, no legs
appended yet), so the claim demands `n_boardings` to grow by 1, but the code
tests Python truthiness (`if leg.trip_id`) and `0` is falsy, so `n_boardings`
stays at 0. -/
theorem C1_counterexample :
    (ForwardJourney.init.add_leg ⟨1, 2, 0, 10, some 0, false, 0⟩).n_boardings
        = ForwardJourney.init.n_boardings ∧
    (⟨1, 2, 0, 10, some 0, false, 0⟩ : Connection).trip_id ≠ none ∧
    ForwardJourney.init.legs = [] := by decide

/-- C1 (amended): `add_leg` increments `n_boardings` by exactly 1 if and only
if the leg's trip identifier is truthy (non-null and non-zero) and either no
leg has been appended yet or the leg's trip identifier differs from the
immediately preceding leg's; in every other case `n_boardings` is unchanged. -/
theorem C1_boarding_increment_amended (j : ForwardJourney) (leg : Connection) :
    (j.add_leg leg).n_boardings =
      (match j.legs.getLast? with
       | none => if truthy leg.trip_id then j.n_boardings + 1 else j.n_boardings
       | some last =>
         if truthy leg.trip_id ∧ leg.trip_id ≠ last.trip_id then j.n_boardings + 1
         else j.n_boardings) := by
  cases hj : j.legs with
  | nil => simp [ForwardJourney.add_leg, hj]
  | cons x xs => simp [ForwardJourney.add_leg, hj, List.getLast?_cons]

/-- C6 counterexample: the zero-leg journey on which `get_transfers`,
`get_waiting_times` and `get_total_invehicle_time` — all operations the claim
says must fail — return ordinary values (`0`, `[]`, `0`). -/
theorem C6_counterexample :
    ForwardJourney.init.legs = [] ∧
    ForwardJourney.init.get_transfers = 0 ∧
    ForwardJourney.init.get_waiting_times = [] ∧
    ForwardJourney.init.get_total_invehicle_time = 0 := by decide

/-- C6 (amended): on the zero-leg journey only `get_travel_time` (subtraction
on `None`) and `get_all_stops` (`legs[-1]` on an empty list) raise;
`get_transfers` returns 0, the list-valued accessors return `[]` and the
totals return 0. -/
theorem C6_empty_journey_behaviour :
    ForwardJourney.init.get_travel_time = none ∧
    ForwardJourney.init.get_all_stops = none ∧
    ForwardJourney.init.get_transfers = 0 ∧
    ForwardJourney.init.get_transfer_stop_pairs = [] ∧
    ForwardJourney.init.get_waiting_times = [] ∧
    ForwardJourney.init.get_total_waiting_time = 0 ∧
    ForwardJourney.init.get_invehicle_times = [] ∧
    ForwardJourney.init.get_total_invehicle_time = 0 ∧
    ForwardJourney.init.get_walking_times = [] ∧
    ForwardJourney.init.get_total_walking_time = 0 := by decide

/-- C10: a leg whose trip identifier is non-null but falsy (the integer `0`)
never increments `n_boardings` when appended — `add_leg` tests truthiness —
yet `get_invehicle_times` classifies it as a vehicle leg (`is not None` test)
and appends its duration to the list. -/
theorem C10_falsy_trip_id_classified_differently (j : ForwardJourney)
    (leg : Connection) (h : leg.trip_id = some 0) :
    (j.add_leg leg).n_boardings = j.n_boardings ∧
    (j.add_leg leg).get_invehicle_times = j.get_invehicle_times ++ [leg.duration] := by
  constructor
  · simp [ForwardJourney.add_leg, truthy, h]
  · simp [ForwardJourney.get_invehicle_times, ForwardJourney.add_leg, h,
      List.filter_append]

/-- Witness for C10 at a concrete journey and leg. -/
theorem C10_witness :
    (ForwardJourney.init.add_leg ⟨1, 2, 0, 10, some 0, false, 0⟩).n_boardings
        = ForwardJourney.init.n_boardings ∧
    (ForwardJourney.init.add_leg ⟨1, 2, 0, 10, some 0, false, 0⟩).get_invehicle_times
        = ForwardJourney.init.get_invehicle_times
          ++ [Connection.duration ⟨1, 2, 0, 10, some 0, false, 0⟩] :=
  C10_falsy_trip_id_classified_differently ForwardJourney.init
    ⟨1, 2, 0, 10, some 0, false, 0⟩ rfl

/-- C5: building from legs `L1 … Ln` (n ≥ 1) gives
`departure_time = L1.departure_time` and `arrival_time = Ln.arrival_time`;
a later append never changes `departure_time`, while every append overwrites
`arrival_time` with the new leg's arrival time. -/
theorem C5_departure_arrival_invariant (legs : List Connection)
    (leg : Connection) (h : legs ≠ []) :
    (ForwardJourney.build legs).departure_time
        = legs.head?.map Connection.departure_time ∧
    (ForwardJourney.build legs).arrival_time
        = legs.getLast?.map Connection.arrival_time ∧
    (ForwardJourney.build (legs ++ [leg])).departure_time
        = (ForwardJourney.build legs).departure_time ∧
    ((ForwardJourney.build legs).add_leg leg).arrival_time = some leg.arrival_time := by
  refine ⟨?_, build_arrival legs h, ?_, rfl⟩
  · cases legs with
    | nil => exact absurd rfl h
    | cons x xs => simpa using build_departure x xs
  · rw [ForwardJourney.build, List.foldl_append]
    exact add_leg_departure_of_ne_nil _ leg (by rw [← ForwardJourney.build, build_legs]; exact h)

/-- Witness for C5 at a one-leg journey and a second appended leg. -/
theorem C5_witness :
    (ForwardJourney.build [⟨1, 2, 0, 10, some 1, false, 0⟩]).departure_time = some 0 ∧
    (ForwardJourney.build [⟨1, 2, 0, 10, some 1, false, 0⟩]).arrival_time = some 10 ∧
    (ForwardJourney.build
        [⟨1, 2, 0, 10, some 1, false, 0⟩, ⟨2, 3, 10, 20, some 2, false, 0⟩]).departure_time
      = (ForwardJourney.build [⟨1, 2, 0, 10, some 1, false, 0⟩]).departure_time ∧
    ((ForwardJourney.build [⟨1, 2, 0, 10, some 1, false, 0⟩]).add_leg
        ⟨2, 3, 10, 20, some 2, false, 0⟩).arrival_time = some 20 := by
  have h := C5_departure_arrival_invariant [⟨1, 2, 0, 10, some 1, false, 0⟩]
    ⟨2, 3, 10, 20, some 2, false, 0⟩ (by simp)
  exact ⟨h.1, h.2.1, h.2.2.1, h.2.2.2⟩

/-- The transfer-pair rule exactly as claim C3 words it: a pair is emitted for
each leg whose trip identifier is non-null, differs from the trip identifier
of the most recently seen leg with a *non-null* trip identifier (walking legs
do not update this tracked identifier), and for which a previous arrival stop
exists. Written to compare against `get_transfer_stop_pairs`. -/
def transferPairsClaimLoop : List Connection → Option Int → Option Int → List (Int × Int)
  | [], _, _ => []
  | leg :: rest, prevArr, lastVehicleTrip =>
    (match prevArr, leg.trip_id with
     | some p, some t => if some t ≠ lastVehicleTrip then [(p, leg.departure_stop)] else []
     | _, _ => []) ++
      transferPairsClaimLoop rest (some leg.arrival_stop)
        (if leg.trip_id.isSome then leg.trip_id else lastVehicleTrip)

/-- Top-level form of the claim C3 rule. -/
def transfer_stop_pairs_claim (legs : List Connection) : List (Int × Int) :=
  transferPairsClaimLoop legs none none

/-- C3 counterexample: trip `1`, then a walking leg, then trip `1` again. The
most recently seen non-null trip identifier at the third leg is `1`, equal to
its own, so the claim predicts no pair; but the code resets its tracked
`current_trip_id` to `None` on the walking leg and therefore emits `(3, 3)`. -/
theorem C3_counterexample :
    (ForwardJourney.build
        [⟨1, 2, 0, 600, some 1, false, 0⟩,
         ⟨2, 3, 600, 660, none, true, 0⟩,
         ⟨3, 4, 660, 1200, some 1, false, 0⟩]).get_transfer_stop_pairs = [(3, 3)] ∧
    transfer_stop_pairs_claim
        [⟨1, 2, 0, 600, some 1, false, 0⟩,
         ⟨2, 3, 600, 660, none, true, 0⟩,
         ⟨3, 4, 660, 1200, some 1, false, 0⟩] = [] := by decide

/-- The amended transfer-pair rule: a pair `(previous leg's arrival stop,
this leg's departure stop)` is emitted for each leg (beyond the first) whose
trip identifier is non-null and differs from the trip identifier of the
*immediately preceding* leg — a preceding walking leg carries the null
identifier, so returning to the same trip after a walk still emits a pair. -/
def transfer_stop_pairs_amended : List Connection → List (Int × Int)
  | [] => []
  | [_] => []
  | prev :: cur :: rest =>
    (if cur.trip_id.isSome ∧ cur.trip_id ≠ prev.trip_id
     then [(prev.arrival_stop, cur.departure_stop)] else [])
      ++ transfer_stop_pairs_amended (cur :: rest)

lemma transferPairsLoop_after (rest : List Connection) (prev : Connection) :
    transferPairsLoop rest (some prev.arrival_stop) prev.trip_id
      = transfer_stop_pairs_amended (prev :: rest) := by
  induction rest generalizing prev with
  | nil => rfl
  | cons cur rs ih =>
    simp only [transferPairsLoop, transfer_stop_pairs_amended]
    rw [ih cur]
    cases h : cur.trip_id <;> simp [h]

/-- C3 (amended): `get_transfer_stop_pairs` emits the pair (previous leg's
arrival stop, this leg's departure stop) exactly for each non-first leg whose
trip identifier is non-null and differs from the immediately preceding leg's
trip identifier. -/
theorem C3_transfer_pairs_amended (legs : List Connection) :
    (ForwardJourney.build legs).get_transfer_stop_pairs
      = transfer_stop_pairs_amended legs := by
  rw [ForwardJourney.get_transfer_stop_pairs, build_legs]
  cases legs with
  | nil => rfl
  | cons x xs =>
    rw [← transferPairsLoop_after xs x]
    simp [transferPairsLoop]

/-- C4 counterexample: two legs whose first arrival time is `0`. The claim
demands a waiting-time list of length `n − 1 = 1`, but `if previous_arrival:`
treats the arrival time `0` as falsy and the code returns `[]`. -/
theorem C4_counterexample :
    (ForwardJourney.build
        [⟨1, 2, 0, 0, some 1, false, 0⟩,
         ⟨2, 3, 10, 20, some 2, false, 0⟩]).get_waiting_times = [] ∧
    ([⟨1, 2, 0, 0, some 1, false, 0⟩,
      ⟨2, 3, 10, 20, some 2, false, 0⟩] : List Connection).length - 1 = 1 := by decide

/-- The amended waiting-time rule: the gap `departure_time(leg) −
arrival_time(previous leg)` is returned for each leg after the first whose
predecessor's arrival time is non-zero (Python truthiness skips a gap that
follows an arrival at timestamp `0`). -/
def waiting_times_amended : List Connection → List Int
  | [] => []
  | [_] => []
  | prev :: cur :: rest =>
    (if prev.arrival_time ≠ 0 then [cur.departure_time - prev.arrival_time] else [])
      ++ waiting_times_amended (cur :: rest)

lemma waitingTimesLoop_after (rest : List Connection) (prev : Connection) :
    waitingTimesLoop rest (some prev.arrival_time)
      = waiting_times_amended (prev :: rest) := by
  induction rest generalizing prev with
  | nil => rfl
  | cons cur rs ih =>
    simp only [waitingTimesLoop, waiting_times_amended]
    rw [ih cur]

/-- C4 (amended): `get_waiting_times` returns the consecutive gaps
`departure_time(leg) − arrival_time(previous leg)` in leg order, except that
a gap whose preceding arrival time is `0` is skipped; `get_total_waiting_time`
is the sum of the returned list. -/
theorem C4_waiting_times_amended (legs : List Connection) :
    (ForwardJourney.build legs).get_waiting_times = waiting_times_amended legs ∧
    (ForwardJourney.build legs).get_total_waiting_time
      = ((ForwardJourney.build legs).get_waiting_times).sum := by
  refine ⟨?_, rfl⟩
  rw [ForwardJourney.get_waiting_times, build_legs]
  cases legs with
  | nil => rfl
  | cons x xs =>
    rw [← waitingTimesLoop_after xs x]
    simp [waitingTimesLoop]

lemma dominates_eval (s o : ForwardJourney) (sd od sa oa : Int)
    (h1 : s.departure_time = some sd) (h2 : o.departure_time = some od)
    (h3 : s.arrival_time = some sa) (h4 : o.arrival_time = some oa)
    (ct cb : Bool) :
    s.dominates o ct cb =
      some ((!ct || (decide (od ≤ sd) && decide (sa ≤ oa))) &&
            (!cb || decide (s.n_boardings ≤ o.n_boardings))) := by
  cases ct <;> cases cb <;>
    by_cases hd : od ≤ sd <;> by_cases ha : sa ≤ oa <;>
      by_cases hb : s.n_boardings ≤ o.n_boardings <;>
        simp [ForwardJourney.dominates, h1, h2, h3, h4, oge, ole, pand, hd, ha,
          hb, ge_iff_le]

/-- C2: on non-empty built journeys, `dominates` returns `True` exactly when
the enabled criteria pass — with `consider_time`, `self` departs no earlier
and arrives no later; with `consider_boardings`, `self` boards no more; with
both flags disabled it is vacuously `True`. -/
theorem C2_dominates_iff (ls lo : List Connection) (hs : ls ≠ []) (ho : lo ≠ [])
    (ct cb : Bool) :
    ((ForwardJourney.build ls).dominates (ForwardJourney.build lo) ct cb
        = some true) ↔
      ((ct = true →
          ((ForwardJourney.build lo).departure_time.getD 0
              ≤ (ForwardJourney.build ls).departure_time.getD 0 ∧
           (ForwardJourney.build ls).arrival_time.getD 0
              ≤ (ForwardJourney.build lo).arrival_time.getD 0)) ∧
       (cb = true →
          (ForwardJourney.build ls).n_boardings
            ≤ (ForwardJourney.build lo).n_boardings)) := by
  obtain ⟨sd, hsd⟩ := build_departure_some ls hs
  obtain ⟨od, hod⟩ := build_departure_some lo ho
  obtain ⟨sa, hsa⟩ := build_arrival_some ls hs
  obtain ⟨oa, hoa⟩ := build_arrival_some lo ho
  rw [dominates_eval _ _ sd od sa oa hsd hod hsa hoa, hsd, hod, hsa, hoa]
  cases ct <;> cases cb <;> simp

/-- Witness for C2: the one-leg journey departing at 100 and arriving at 500
versus the one-leg journey departing at 50 and arriving at 600, under both
criteria. -/
theorem C2_witness :
    ((ForwardJourney.build [⟨1, 2, 100, 500, some 1, false, 0⟩]).dominates
        (ForwardJourney.build [⟨1, 2, 50, 600, some 1, false, 0⟩]) true true
        = some true) ↔
      ((true = true →
          ((ForwardJourney.build [⟨1, 2, 50, 600, some 1, false, 0⟩]).departure_time.getD 0
              ≤ (ForwardJourney.build [⟨1, 2, 100, 500, some 1, false, 0⟩]).departure_time.getD 0 ∧
           (ForwardJourney.build [⟨1, 2, 100, 500, some 1, false, 0⟩]).arrival_time.getD 0
              ≤ (ForwardJourney.build [⟨1, 2, 50, 600, some 1, false, 0⟩]).arrival_time.getD 0)) ∧
       (true = true →
          (ForwardJourney.build [⟨1, 2, 100, 500, some 1, false, 0⟩]).n_boardings
            ≤ (ForwardJourney.build [⟨1, 2, 50, 600, some 1, false, 0⟩]).n_boardings)) :=
  C2_dominates_iff [⟨1, 2, 100, 500, some 1, false, 0⟩]
    [⟨1, 2, 50, 600, some 1, false, 0⟩] (by simp) (by simp) true true

/-- C7: dominance is reflexive — every non-empty built journey dominates
itself under every combination of the two criteria flags. -/
theorem C7_dominates_reflexive (ls : List Connection) (h : ls ≠ [])
    (ct cb : Bool) :
    (ForwardJourney.build ls).dominates (ForwardJourney.build ls) ct cb
      = some true := by
  obtain ⟨d, hd⟩ := build_departure_some ls h
  obtain ⟨a, ha⟩ := build_arrival_some ls h
  rw [dominates_eval _ _ d d a a hd hd ha ha]
  simp

/-- Witness for C7 at a concrete one-leg journey with both criteria. -/
theorem C7_witness :
    (ForwardJourney.build [⟨1, 2, 0, 10, some 1, false, 0⟩]).dominates
      (ForwardJourney.build [⟨1, 2, 0, 10, some 1, false, 0⟩]) true true
      = some true :=
  C7_dominates_reflexive [⟨1, 2, 0, 10, some 1, false, 0⟩] (by simp) true true
